import Mathlib

/-!
Shallow embedding of `src/app.py` (csv-to-dxf-app): the geometry-pipeline
conversion from CSV survey records to DXF drawing entities plus a summary
table.  Numbers are modelled as exact rationals `ℚ`; Python exceptions are
modelled by `Option` (`none` = an uncaught exception propagating out of
`process_csvs`).  The pyproj EPSG:4326 → EPSG:2248 planar projection is an
external collaborator and is modelled as an arbitrary parameter
`proj : ℚ → ℚ → ℚ × ℚ` supplying the (x, y) pair; the elevation formula and
all entity/summary construction are translated directly from the source.
-/

/-- Digits-to-number accumulator used by the numeric literal model. -/
def natOfDigits (l : List Char) : Nat :=
  l.foldl (fun a c => 10 * a + (c.toNat - 48)) 0

/-- Exponent part of a float literal (after `e`/`E`): optional sign then a
nonempty run of digits. -/
def parseExpPart : List Char → Option ℤ
  | [] => none
  | '+' :: rest =>
      if rest ≠ [] ∧ rest.all Char.isDigit then some (natOfDigits rest) else none
  | '-' :: rest =>
      if rest ≠ [] ∧ rest.all Char.isDigit then some (-(natOfDigits rest : ℤ)) else none
  | l =>
      if l.all Char.isDigit then some (natOfDigits l) else none

/-- Unsigned mantissa `digits [. digits]` (at least one digit overall);
returns the value and the unconsumed remainder. -/
def parseMantissa (l : List Char) : Option (ℚ × List Char) :=
  let ip := l.takeWhile Char.isDigit
  let r1 := l.dropWhile Char.isDigit
  match r1 with
  | '.' :: r2 =>
      let fp := r2.takeWhile Char.isDigit
      let r3 := r2.dropWhile Char.isDigit
      if ip.isEmpty ∧ fp.isEmpty then none
      else some ((natOfDigits ip : ℚ) + (natOfDigits fp : ℚ) / ((10 : ℚ) ^ fp.length), r3)
  | _ =>
      if ip.isEmpty then none else some ((natOfDigits ip : ℚ), r1)

/-- Signed float literal body: optional sign, mantissa, optional exponent. -/
def pyFloatAux (l : List Char) : Option ℚ :=
  let (sign, l2) : ℚ × List Char :=
    match l with
    | '+' :: r => (1, r)
    | '-' :: r => (-1, r)
    | r => (1, r)
  match parseMantissa l2 with
  | none => none
  | some (m, rest) =>
      match rest with
      | [] => some (sign * m)
      | c :: r =>
          if c = 'e' ∨ c = 'E' then
            match parseExpPart r with
            | some e => some (sign * m * (10 : ℚ) ^ e)
            | none => none
          else none

/-- Models CPython `float(str)` on finite decimal literals: surrounding
whitespace is ignored, then an optional sign, a decimal mantissa and an
optional exponent.  (The special literals `inf`/`nan` and digit-group
underscores are outside the inputs this program's claims are about.)
`none` models the `ValueError` that `float` raises on anything else. -/
def pyFloat (s : String) : Option ℚ :=
  pyFloatAux (((s.data.dropWhile Char.isWhitespace).reverse.dropWhile Char.isWhitespace).reverse)

/-- Models Python `str.strip(chars)`: removes any characters of the set
`cs` from both ends of the string. -/
def pyStrip (s : String) (cs : List Char) : String :=
  ⟨((s.data.dropWhile (cs.contains ·)).reverse.dropWhile (cs.contains ·)).reverse⟩

/-- `s.startswith(pre)` on the underlying character lists (structural, so
that concrete instances evaluate inside the kernel). -/
def strStartsWith (s pre : String) : Bool :=
  pre.data.isPrefixOf s.data

/-- Split a character list at every character satisfying `p`, keeping
empty groups (the behavior of Python `str.split(sep)`). -/
def splitChars (p : Char → Bool) : List Char → List (List Char)
  | [] => [[]]
  | c :: cs =>
      if p c then [] :: splitChars p cs
      else
        match splitChars p cs with
        | [] => [[c]]
        | g :: gs => (c :: g) :: gs

/-- Models Python `str.split()` (no separator): split on whitespace runs,
discarding empty pieces. -/
def pySplitWs (s : String) : List String :=
  ((splitChars Char.isWhitespace s.data).map fun l => (⟨l⟩ : String)).filter (· ≠ "")

/-- Models Python `str.split(",")`: split at every comma, keeping empty
pieces. -/
def pySplitComma (s : String) : List String :=
  (splitChars (· = ',') s.data).map fun l => (⟨l⟩ : String)

/-- One comma-separated vertex of a LINESTRINGZ/POLYGONZ body:
`tuple(map(float, c.strip().split()))` — a tuple of floats of whatever
arity the text provides (`none` = a `float` ValueError). -/
def parseVertex (c : String) : Option (List ℚ) :=
  (pySplitWs c).mapM pyFloat

/-- `[tuple(map(float, c.strip().split())) for c in coords]`. -/
def parseVertexList (pieces : List String) : Option (List (List ℚ)) :=
  pieces.mapM parseVertex

/-- Translation of `parse_geometry` (src/app.py lines 11-22).  A vertex is a
`List ℚ` because Python builds tuples of whatever arity the text provides;
downstream unpacking demands arity 3.  `none` models an uncaught
`ValueError`/`IndexError` escaping `parse_geometry`; an unrecognized prefix
returns `some []`. -/
def parse_geometry (geometry_str : String) : Option (List (List ℚ)) :=
  if strStartsWith geometry_str "POINTZ" then
    match pySplitWs (pyStrip geometry_str "POINTZ() ".data) with
    | c0 :: c1 :: c2 :: _ =>
        match pyFloat c0, pyFloat c1, pyFloat c2 with
        | some a, some b, some c => some [[a, b, c]]
        | _, _, _ => none
    | _ => none
  else if strStartsWith geometry_str "LINESTRINGZ" then
    parseVertexList (pySplitComma (pyStrip geometry_str "LINESTRINGZ() ".data))
  else if strStartsWith geometry_str "POLYGONZ" then
    parseVertexList
      (pySplitComma (pyStrip (pyStrip (pyStrip geometry_str "POLYGONZ() ".data) "(".data) ")".data))
  else
    some []

/-- Translation of `transform_point` (src/app.py lines 24-27); the planar
projection `proj` stands for the fixed pyproj transformer (an external
collaborator), the z formula is translated literally. -/
def transform_point (proj : ℚ → ℚ → ℚ × ℚ) (lon lat elev inst_ht : ℚ) : ℚ × ℚ × ℚ :=
  let xy := proj lon lat
  (xy.1, xy.2, (elev + 34.67 - inst_ht) * 3.28084)

/-- ACI color numbers used by ezdxf (`ezdxf.colors`). -/
def RED : Nat := 1

/-- ezdxf ACI yellow. -/
def YELLOW : Nat := 2

/-- ezdxf ACI green. -/
def GREEN : Nat := 3

/-- ezdxf ACI blue. -/
def BLUE : Nat := 5

/-- A DXF layer-table entry (name plus the color it was created with). -/
structure Layer where
  name : String
  color : Nat
deriving DecidableEq, Repr

/-- The modelspace entities the program creates: lines, texts, lightweight
polylines and 3-D points, each carrying its layer and color attribute. -/
inductive Entity where
  | line (p1 p2 : ℚ × ℚ × ℚ) (layer : String) (color : Nat)
  | text (content : String) (insert : ℚ × ℚ × ℚ) (height : ℚ) (layer : String) (color : Nat)
  | lwpolyline (pts : List (ℚ × ℚ)) (closed : Bool) (elevation : ℚ) (layer : String) (color : Nat)
  | point (p : ℚ × ℚ × ℚ) (layer : String) (color : Nat)
deriving DecidableEq, Repr

/-- The DXF document state: the layer table and the modelspace entity list
(in creation order). -/
structure Doc where
  layers : List Layer
  entities : List Entity
deriving DecidableEq, Repr

/-- One row of the accumulated summary table (`all_records`): the `Type`
column is the constructor, the remaining fields are the dict values. -/
inductive SummaryRow where
  | point (name remarks : String) (x y z : ℚ)
  | line (name remarks : String) (vertices : List (ℚ × ℚ × ℚ))
  | polygon (name remarks : String) (vertices : List (ℚ × ℚ × ℚ))
deriving DecidableEq, Repr

/-- Translation of `add_point_marker` (src/app.py lines 29-31): appends the
two diagonal segments of the X marker to the modelspace. -/
def add_point_marker (msp : List Entity) (x y z size : ℚ) (layer : String) (color : Nat) :
    List Entity :=
  msp ++ [Entity.line (x - size, y - size, z) (x + size, y + size, z) layer color,
    Entity.line (x - size, y + size, z) (x + size, y - size, z) layer color]

/-- Translation of `add_text` (src/app.py lines 33-34). -/
def add_text (msp : List Entity) (t : String) (x y z txt_size : ℚ) (layer : String)
    (color : Nat) : List Entity :=
  msp ++ [Entity.text t (x, y, z) txt_size layer color]

/-- Models Python's fixed-point formatting `f"{z:.2f}"` from the exact
rational value (the tie-breaking of binary floating point at half-way cases
is immaterial to every claim, which depend only on where and on which layer
the label is placed). -/
def fmt2 (q : ℚ) : String :=
  let n : ℤ := round (q * 100)
  let sign := if n < 0 then "-" else ""
  let m := n.natAbs
  sign ++ toString (m / 100) ++ "." ++ (if m % 100 < 10 then "0" else "") ++ toString (m % 100)

/-- An input row: the cells of one CSV record, as (column, string value)
pairs (pandas with `keep_default_na=False` yields strings, empty cells
becoming `""`). -/
abbrev Row := List (String × String)

/-- Models pandas `row.get(key, default)`. -/
def rowGet (row : Row) (key dflt : String) : String :=
  match row.lookup key with
  | some v => v
  | none => dflt

/-- Models `row[key]` for a key guarded to be among the file's columns
(a missing cell of a present column reads as the empty string). -/
def rowItem (row : Row) (key : String) : String :=
  rowGet row key ""

/-- `row.get('Name', row.get('ID', ''))` (src/app.py line 46). -/
def rowName (row : Row) : String :=
  rowGet row "Name" (rowGet row "ID" "")

/-- `float(row.get('Instrument Ht', 1.6))` (src/app.py line 48): the float
default 1.6 is used when the column is absent; a present cell goes through
`float`, whose failure (`none`) is an uncaught ValueError. -/
def getInstHt (row : Row) : Option ℚ :=
  match row.lookup "Instrument Ht" with
  | some v => pyFloat v
  | none => some 1.6

/-- `float(row.get('Fix ID', 0))` (src/app.py line 54). -/
def getFix (row : Row) : Option ℚ :=
  match row.lookup "Fix ID" with
  | some v => pyFloat v
  | none => some 0

/-- `if layer not in doc.layers: doc.layers.new(...)` — lazy idempotent
layer creation. -/
def ensureLayer (doc : Doc) (name : String) (color : Nat) : Doc :=
  if doc.layers.any (fun l => l.name = name) then doc
  else { doc with layers := doc.layers ++ [⟨name, color⟩] }

/-- Per-coordinate unpacking `lon, lat, elev = c` followed by
`transform_point`; a tuple of arity ≠ 3 raises (ValueError), modelled as
`none`. -/
def toVertex (proj : ℚ → ℚ → ℚ × ℚ) (inst_ht : ℚ) : List ℚ → Option (ℚ × ℚ × ℚ)
  | [lon, lat, elev] => some (transform_point proj lon lat elev inst_ht)
  | _ => none

/-- `[transform_point(lon, lat, elev, inst_ht) for lon, lat, elev in coords]`. -/
def transformVertices (proj : ℚ → ℚ → ℚ × ℚ) (inst_ht : ℚ) :
    List (List ℚ) → Option (List (ℚ × ℚ × ℚ))
  | [] => some []
  | c :: cs => do
      let v ← toVertex proj inst_ht c
      let vs ← transformVertices proj inst_ht cs
      pure (v :: vs)

/-- The per-vertex loop of the LINESTRINGZ branch (src/app.py lines 74-76):
for each vertex a 3-D point entity plus an X marker. -/
def addVertexEntities (ms : ℚ) (lay : String) (msp : List Entity)
    (vs : List (ℚ × ℚ × ℚ)) : List Entity :=
  vs.foldl (fun m v =>
    add_point_marker (m ++ [Entity.point v lay 256]) v.1 v.2.1 v.2.2 ms lay BLUE) msp

/-- The per-vertex loop of the POLYGONZ branch (src/app.py lines 85-86):
an X marker at every vertex. -/
def addPolyMarkers (ms : ℚ) (lay : String) (msp : List Entity)
    (vs : List (ℚ × ℚ × ℚ)) : List Entity :=
  vs.foldl (fun m v => add_point_marker m v.1 v.2.1 v.2.2 ms lay GREEN) msp

/-- `np.mean` of a list of rationals (never applied to `[]` by the
program: the branches that use it have at least one vertex). -/
def qmean (l : List ℚ) : ℚ :=
  l.sum / l.length

/-- The body of the per-row loop of `process_csvs` (src/app.py lines
45-91), translated statement by statement.  `none` models an uncaught
exception aborting the whole batch. -/
def process_row (proj : ℚ → ℚ → ℚ × ℚ) (marker_size txt_size : ℚ)
    (st : Doc × List SummaryRow) (row : Row) : Option (Doc × List SummaryRow) := do
  let doc := st.1
  let recs := st.2
  let name := rowName row
  let remarks := rowGet row "Remarks" ""
  let inst_ht ← getInstHt row
  let geometry := rowItem row "Geometry"
  let coords ← parse_geometry geometry
  if strStartsWith geometry "POINTZ" then
    match coords with
    | (lon :: lat :: elev :: []) :: _ =>
      let p := transform_point proj lon lat elev inst_ht
      let x := p.1
      let y := p.2.1
      let z := p.2.2
      let fix ← getFix row
      let color := if fix = 4 then RED else YELLOW
      let layer := "v-points"
      let doc := ensureLayer doc layer YELLOW
      let msp := add_point_marker doc.entities x y z marker_size layer color
      let msp := add_text msp (fmt2 z) (x + marker_size) (y + marker_size) z txt_size layer color
      let msp := if remarks ≠ "" then
          add_text msp remarks (x + marker_size) (y - marker_size - txt_size) z txt_size layer color
        else msp
      pure ({ doc with entities := msp },
        recs ++ [SummaryRow.point name remarks x y z])
    | _ => none
  else if strStartsWith geometry "LINESTRINGZ" then do
    let vertices ← transformVertices proj inst_ht coords
    let layer := "v-lines-" ++ name
    let doc := ensureLayer doc layer BLUE
    let msp := doc.entities ++
      [Entity.lwpolyline (vertices.map (fun v => (v.1, v.2.1))) false 0 layer 256]
    let msp := addVertexEntities marker_size layer msp vertices
    let mid ← vertices.get? (vertices.length / 2)
    let msp := add_text msp name mid.1 mid.2.1 mid.2.2 txt_size layer BLUE
    pure ({ doc with entities := msp },
      recs ++ [SummaryRow.line name remarks vertices])
  else if strStartsWith geometry "POLYGONZ" then do
    let vertices ← transformVertices proj inst_ht coords
    let layer := "v-polygons-" ++ name
    let doc := ensureLayer doc layer GREEN
    let msp := doc.entities ++
      [Entity.lwpolyline (vertices.map (fun v => (v.1, v.2.1))) true 0 layer 256]
    let msp := addPolyMarkers marker_size layer msp vertices
    let cx := qmean (vertices.map (fun v => v.1))
    let cy := qmean (vertices.map (fun v => v.2.1))
    let cz := qmean (vertices.map (fun v => v.2.2))
    let msp := add_text msp (name ++ "\n" ++ remarks) cx cy cz txt_size layer GREEN
    pure ({ doc with entities := msp },
      recs ++ [SummaryRow.polygon name remarks vertices])
  else
    pure (doc, recs)

/-- One uploaded CSV file: its column header and its rows. -/
structure CsvFile where
  cols : List String
  rows : List Row

/-- The inner `for _, row in df.iterrows()` loop, as structural recursion
over the row list; an exception in one row aborts the whole loop. -/
def process_rows (proj : ℚ → ℚ → ℚ × ℚ) (marker_size txt_size : ℚ) :
    (Doc × List SummaryRow) → List Row → Option (Doc × List SummaryRow)
  | st, [] => some st
  | st, r :: rs => do
      let st' ← process_row proj marker_size txt_size st r
      process_rows proj marker_size txt_size st' rs

/-- One iteration of the file loop: the `'Geometry' not in df.columns`
guard skips a whole file (`continue`), otherwise every row is processed. -/
def process_file (proj : ℚ → ℚ → ℚ × ℚ) (marker_size txt_size : ℚ)
    (st : Doc × List SummaryRow) (f : CsvFile) : Option (Doc × List SummaryRow) :=
  if "Geometry" ∈ f.cols then process_rows proj marker_size txt_size st f.rows
  else some st

/-- The outer file loop, over the batch of uploaded files. -/
def process_files (proj : ℚ → ℚ → ℚ × ℚ) (marker_size txt_size : ℚ) :
    (Doc × List SummaryRow) → List CsvFile → Option (Doc × List SummaryRow)
  | st, [] => some st
  | st, f :: fs => do
      let st' ← process_file proj marker_size txt_size st f
      process_files proj marker_size txt_size st' fs

/-- A fresh `ezdxf.new()` document (layer "0" exists by default). -/
def newDoc : Doc :=
  { layers := [⟨"0", 7⟩], entities := [] }

/-- Translation of `process_csvs` (src/app.py lines 36-98): the drawing
document and summary table handed to the artifact writer, or `none` when an
uncaught exception aborts the batch. -/
def process_csvs (proj : ℚ → ℚ → ℚ × ℚ) (files : List CsvFile)
    (marker_size txt_size : ℚ) : Option (Doc × List SummaryRow) :=
  process_files proj marker_size txt_size (newDoc, []) files

/-- Entity classifier: is it a LINE? -/
def isLine : Entity → Bool
  | Entity.line .. => true
  | _ => false

/-- Entity classifier: is it a TEXT? -/
def isText : Entity → Bool
  | Entity.text .. => true
  | _ => false

/-- The layer attribute of an entity. -/
def layerOf : Entity → String
  | Entity.line _ _ lay _ => lay
  | Entity.text _ _ _ lay _ => lay
  | Entity.lwpolyline _ _ _ lay _ => lay
  | Entity.point _ lay _ => lay

/-- The (content, insert point, layer) of each TEXT entity of a list, in
order. -/
def textsOf (l : List Entity) : List (String × (ℚ × ℚ × ℚ) × String) :=
  l.filterMap fun e =>
    match e with
    | Entity.text c i _ lay _ => some (c, i, lay)
    | _ => none

/-- A concrete stand-in for the external pyproj planar projection, used
only to instantiate counterexamples and witnesses (none of which depend on
the projected x/y values). -/
def projId : ℚ → ℚ → ℚ × ℚ := fun a b => (a, b)

/-- Claim C3: for every coordinate processed by the projector, the output
elevation z equals (height value + 34.67 − instrument height) × 3.28084,
where 34.67 is the fixed geoid-offset constant and 3.28084 the
meters-to-feet factor (src/app.py line 26). -/
theorem transform_point_elevation (proj : ℚ → ℚ → ℚ × ℚ) (lon lat elev inst_ht : ℚ) :
    (transform_point proj lon lat elev inst_ht).2.2 = (elev + 34.67 - inst_ht) * 3.28084 :=
  rfl

unseal Rat.add Rat.mul Rat.sub Rat.inv Rat.ofScientific in
/-- Claim C6: parsing "POINTZ(-77.0 38.9 100.0)" yields exactly the triple
(-77.0, 38.9, 100.0), and parsing
"LINESTRINGZ(-77.0 38.9 10.0, -77.1 38.95 12.0)" yields exactly the triples
(-77.0, 38.9, 10.0) and (-77.1, 38.95, 12.0) in that order. -/
theorem parse_geometry_examples :
    parse_geometry "POINTZ(-77.0 38.9 100.0)" = some [[-77, 38.9, 100]] ∧
    parse_geometry "LINESTRINGZ(-77.0 38.9 10.0, -77.1 38.95 12.0)" =
      some [[-77, 38.9, 10], [-77.1, 38.95, 12]] := by
  constructor <;> decide

unseal Rat.add Rat.mul Rat.sub Rat.inv Rat.ofScientific in
/-- Claim C1, counterexample: a batch whose first record has a recognized
POINTZ prefix with unparsable coordinate content.  The claim predicts the
record is skipped and the following record still yields a summary row; in
fact the uncaught float ValueError aborts the whole batch, so
`process_csvs` produces nothing at all. -/
theorem parse_failure_aborts_batch :
    process_csvs projId
      [⟨["Geometry"], [[("Geometry", "POINTZ(a b c)")], [("Geometry", "POINTZ(1 2 0)")]]⟩]
      1 1 = none := by
  decide

unseal Rat.add Rat.mul Rat.sub Rat.inv Rat.ofScientific in
/-- Claim C4, counterexample: a record whose Instrument Ht cell is present
but not parsable as a number.  The claim predicts the default 1.6 is used
and the record is processed; in fact `float('x')` raises and the batch
aborts with no output. -/
theorem bad_inst_ht_aborts_batch :
    process_csvs projId
      [⟨["Geometry", "Instrument Ht"],
        [[("Geometry", "POINTZ(1 2 0)"), ("Instrument Ht", "x")]]⟩]
      1 1 = none := by
  decide

unseal Rat.add Rat.mul Rat.sub Rat.inv Rat.ofScientific in
/-- Claim C2, counterexample: a Point record with fix-quality code 5.  The
claim predicts an extra horizontal bisecting segment (three LINE entities);
the code draws only the two diagonals for every fix code, so exactly two
LINE entities exist in the whole drawing. -/
theorem fix5_marker_has_two_segments :
    (process_csvs projId
        [⟨["Geometry", "Fix ID", "Instrument Ht"],
          [[("Geometry", "POINTZ(1 2 0)"), ("Fix ID", "5"), ("Instrument Ht", "34.67")]]⟩]
        1 1).map (fun out => (out.1.entities.filter isLine).length) = some 2 := by
  decide

unseal Rat.add Rat.mul Rat.sub Rat.inv Rat.ofScientific in
/-- Claim C5, counterexample: a Point record with non-empty Remarks.  The
claim predicts the remarks label lands on a distinct annotation layer; in
fact all four entities (the two marker segments, the elevation label and
the remarks label) are on the same layer "v-points". -/
theorem remarks_label_on_marker_layer :
    (process_csvs projId
        [⟨["Geometry", "Instrument Ht", "Remarks"],
          [[("Geometry", "POINTZ(1 2 0)"), ("Instrument Ht", "34.67"), ("Remarks", "r")]]⟩]
        1 1).map (fun out => out.1.entities.map layerOf) =
      some ["v-points", "v-points", "v-points", "v-points"] := by
  decide

/-- `ensureLayer` only touches the layer table, never the modelspace. -/
theorem ensureLayer_entities (d : Doc) (n : String) (c : Nat) :
    (ensureLayer d n c).entities = d.entities := by
  unfold ensureLayer
  split <;> rfl

/-- The per-vertex loop only appends: its result is the incoming modelspace
followed by the block it builds from the empty list. -/
theorem addVertexEntities_append (ms : ℚ) (lay : String) :
    ∀ (vs : List (ℚ × ℚ × ℚ)) (m : List Entity),
      addVertexEntities ms lay m vs = m ++ addVertexEntities ms lay [] vs := by
  intro vs
  induction vs with
  | nil => intro m; simp [addVertexEntities]
  | cons v vs ihv =>
      intro m
      have h1 : ∀ m0 : List Entity, addVertexEntities ms lay m0 (v :: vs) =
          addVertexEntities ms lay
            (add_point_marker (m0 ++ [Entity.point v lay 256]) v.1 v.2.1 v.2.2 ms lay BLUE) vs :=
        fun m0 => rfl
      rw [h1, h1, ihv,
        ihv (add_point_marker ([] ++ [Entity.point v lay 256]) v.1 v.2.1 v.2.2 ms lay BLUE)]
      simp [add_point_marker, List.append_assoc]

/-- `textsOf` distributes over append. -/
theorem textsOf_append (a b : List Entity) : textsOf (a ++ b) = textsOf a ++ textsOf b := by
  simp [textsOf, List.filterMap_append]

/-- The per-vertex loop of the line branch creates no TEXT entity. -/
theorem textsOf_addVertexEntities (ms : ℚ) (lay : String) (vs : List (ℚ × ℚ × ℚ)) :
    textsOf (addVertexEntities ms lay [] vs) = [] := by
  induction vs with
  | nil => rfl
  | cons v vs ihv =>
      have h1 : addVertexEntities ms lay [] (v :: vs) =
          addVertexEntities ms lay
            (add_point_marker ([] ++ [Entity.point v lay 256]) v.1 v.2.1 v.2.2 ms lay BLUE) vs :=
        rfl
      rw [h1, addVertexEntities_append]
      simp [add_point_marker, textsOf, List.filterMap_append] at *
      exact ihv

/-- The vertex comprehension yields one projected vertex per parsed
coordinate tuple when it succeeds. -/
theorem transformVertices_length (proj : ℚ → ℚ → ℚ × ℚ) (ih : ℚ) :
    ∀ (cds : List (List ℚ)) (vs : List (ℚ × ℚ × ℚ)),
      transformVertices proj ih cds = some vs → vs.length = cds.length := by
  intro cds
  induction cds with
  | nil =>
      intro vs h
      simp [transformVertices] at h
      simp [← h]
  | cons c cs ihc =>
      intro vs h
      simp only [transformVertices, Option.bind_eq_bind] at h
      cases hv : toVertex proj ih c with
      | none => rw [hv] at h; simp at h
      | some v =>
          rw [hv] at h
          cases hvs : transformVertices proj ih cs with
          | none => rw [hvs] at h; simp at h
          | some ws =>
              rw [hvs] at h
              simp at h
              rw [← h]
              simp [ihc ws hvs]

/-- Claim C1 (amended): a record with a recognized geometry prefix but
unparsable coordinate content is not skipped — the float ValueError
propagates uncaught, so processing that row fails and the whole file's
processing (hence the batch) yields no output; subsequent rows are never
reached. -/
theorem parse_failure_propagates (proj : ℚ → ℚ → ℚ × ℚ) (ms ts : ℚ)
    (st : Doc × List SummaryRow) (row : Row) (cols : List String) (rest : List Row)
    (hcols : "Geometry" ∈ cols)
    (hp : parse_geometry (rowItem row "Geometry") = none) :
    process_row proj ms ts st row = none ∧
    process_file proj ms ts st ⟨cols, row :: rest⟩ = none := by
  have h1 : process_row proj ms ts st row = none := by
    simp only [process_row, hp]
    cases h : getInstHt row <;> simp
  exact ⟨h1, by simp [process_file, hcols, process_rows, h1]⟩

unseal Rat.add Rat.mul Rat.sub Rat.inv Rat.ofScientific in
/-- Witness for `parse_failure_propagates` at a concrete malformed POINTZ
record. -/
theorem parse_failure_propagates_witness :
    process_row projId 1 1 (newDoc, []) [("Geometry", "POINTZ(a b c)")] = none ∧
    process_file projId 1 1 (newDoc, [])
      ⟨["Geometry"], [[("Geometry", "POINTZ(a b c)")]]⟩ = none :=
  parse_failure_propagates projId 1 1 (newDoc, []) [("Geometry", "POINTZ(a b c)")]
    ["Geometry"] [] (by decide) (by decide)

/-- Claim C2 (amended): for every Point record, whatever the fix-quality
code (5 included), the marker consists of exactly the two crossing diagonal
segments — no horizontal bisecting segment is ever added; the fix code only
selects the color (red for 4, yellow otherwise). -/
theorem point_marker_two_diagonals (proj : ℚ → ℚ → ℚ × ℚ) (ms ts : ℚ) (doc : Doc)
    (recs : List SummaryRow) (row : Row) (lon lat elev ih fix : ℚ)
    (hg : strStartsWith (rowItem row "Geometry") "POINTZ" = true)
    (hih : getInstHt row = some ih)
    (hc : parse_geometry (rowItem row "Geometry") = some [[lon, lat, elev]])
    (hfix : getFix row = some fix) :
    (process_row proj ms ts (doc, recs) row).map
        (fun out => (out.1.entities.drop doc.entities.length).filter isLine) =
      some [Entity.line
          ((transform_point proj lon lat elev ih).1 - ms,
            (transform_point proj lon lat elev ih).2.1 - ms,
            (transform_point proj lon lat elev ih).2.2)
          ((transform_point proj lon lat elev ih).1 + ms,
            (transform_point proj lon lat elev ih).2.1 + ms,
            (transform_point proj lon lat elev ih).2.2)
          "v-points" (if fix = 4 then RED else YELLOW),
        Entity.line
          ((transform_point proj lon lat elev ih).1 - ms,
            (transform_point proj lon lat elev ih).2.1 + ms,
            (transform_point proj lon lat elev ih).2.2)
          ((transform_point proj lon lat elev ih).1 + ms,
            (transform_point proj lon lat elev ih).2.1 - ms,
            (transform_point proj lon lat elev ih).2.2)
          "v-points" (if fix = 4 then RED else YELLOW)] := by
  simp only [process_row, hih, hc, hfix, hg, Option.bind_eq_bind, Option.some_bind,
    if_true, add_point_marker, add_text, ensureLayer_entities]
  split <;>
    simp [List.drop_left, isLine, List.filter_append]

unseal Rat.add Rat.mul Rat.sub Rat.inv Rat.ofScientific in
/-- Witness for `point_marker_two_diagonals` at a concrete fix-quality-5
record. -/
theorem point_marker_two_diagonals_witness :
    (process_row projId 1 1 (newDoc, [])
        [("Geometry", "POINTZ(1 2 0)"), ("Instrument Ht", "34.67"), ("Fix ID", "5")]).map
        (fun out => (out.1.entities.drop newDoc.entities.length).filter isLine) =
      some [Entity.line (0, 1, 0) (2, 3, 0) "v-points" YELLOW,
        Entity.line (0, 3, 0) (2, 1, 0) "v-points" YELLOW] :=
  point_marker_two_diagonals projId 1 1 newDoc []
    [("Geometry", "POINTZ(1 2 0)"), ("Instrument Ht", "34.67"), ("Fix ID", "5")]
    1 2 0 34.67 5 (by decide) (by decide) (by decide) (by decide)

/-- Claim C4 (amended): the instrument height defaults to 1.6 only when the
Instrument Ht field is absent; when the field is present but not parsable
as a number, `float` raises an uncaught ValueError, so the record's
processing returns an error (aborting the batch) instead of using 1.6. -/
theorem inst_ht_default_and_error (row1 row2 : Row) (v : String)
    (proj : ℚ → ℚ → ℚ × ℚ) (ms ts : ℚ) (st : Doc × List SummaryRow)
    (h1 : row1.lookup "Instrument Ht" = none)
    (h2 : row2.lookup "Instrument Ht" = some v)
    (h3 : pyFloat v = none) :
    getInstHt row1 = some 1.6 ∧ getInstHt row2 = none ∧
      process_row proj ms ts st row2 = none := by
  have g2 : getInstHt row2 = none := by simp [getInstHt, h2, h3]
  refine ⟨by simp [getInstHt, h1], g2, ?_⟩
  simp [process_row, g2]

unseal Rat.add Rat.mul Rat.sub Rat.inv Rat.ofScientific in
/-- Witness for `inst_ht_default_and_error`: a row without the column gets
1.6, a row with the unparsable cell "x" aborts. -/
theorem inst_ht_default_and_error_witness :
    getInstHt [("Geometry", "POINTZ(1 2 0)")] = some 1.6 ∧
    getInstHt [("Geometry", "POINTZ(1 2 0)"), ("Instrument Ht", "x")] = none ∧
    process_row projId 1 1 (newDoc, [])
      [("Geometry", "POINTZ(1 2 0)"), ("Instrument Ht", "x")] = none :=
  inst_ht_default_and_error [("Geometry", "POINTZ(1 2 0)")]
    [("Geometry", "POINTZ(1 2 0)"), ("Instrument Ht", "x")] "x" projId 1 1 (newDoc, [])
    (by decide) (by decide) (by decide)

/-- Claim C5 (amended): for every Point record a remarks label is emitted
iff the Remarks value is non-empty, and it sits at a different offset than
the elevation label (for the positive display sizes the UI provides) — but
on the SAME layer "v-points" that carries the marker and the elevation
label, not on a distinct annotation layer. -/
theorem remarks_label_placement (proj : ℚ → ℚ → ℚ × ℚ) (ms ts : ℚ) (doc : Doc)
    (recs : List SummaryRow) (row : Row) (lon lat elev ih fix : ℚ)
    (hg : strStartsWith (rowItem row "Geometry") "POINTZ" = true)
    (hih : getInstHt row = some ih)
    (hc : parse_geometry (rowItem row "Geometry") = some [[lon, lat, elev]])
    (hfix : getFix row = some fix)
    (hms : 0 < ms) (hts : 0 < ts) :
    (process_row proj ms ts (doc, recs) row).map
        (fun out => textsOf (out.1.entities.drop doc.entities.length)) =
      some (if rowGet row "Remarks" "" = "" then
          [(fmt2 (transform_point proj lon lat elev ih).2.2,
            ((transform_point proj lon lat elev ih).1 + ms,
              (transform_point proj lon lat elev ih).2.1 + ms,
              (transform_point proj lon lat elev ih).2.2), "v-points")]
        else
          [(fmt2 (transform_point proj lon lat elev ih).2.2,
            ((transform_point proj lon lat elev ih).1 + ms,
              (transform_point proj lon lat elev ih).2.1 + ms,
              (transform_point proj lon lat elev ih).2.2), "v-points"),
           (rowGet row "Remarks" "",
            ((transform_point proj lon lat elev ih).1 + ms,
              (transform_point proj lon lat elev ih).2.1 - ms - ts,
              (transform_point proj lon lat elev ih).2.2), "v-points")]) ∧
    (((transform_point proj lon lat elev ih).1 + ms,
        (transform_point proj lon lat elev ih).2.1 - ms - ts,
        (transform_point proj lon lat elev ih).2.2) : ℚ × ℚ × ℚ) ≠
      ((transform_point proj lon lat elev ih).1 + ms,
        (transform_point proj lon lat elev ih).2.1 + ms,
        (transform_point proj lon lat elev ih).2.2) := by
  constructor
  · simp only [process_row, hih, hc, hfix, hg, Option.bind_eq_bind, Option.some_bind,
      if_true, add_point_marker, add_text, ensureLayer_entities]
    rcases eq_or_ne (rowGet row "Remarks" "") "" with h | h <;>
      simp [h, textsOf, List.drop_left, List.filterMap_append]
  · intro hEq
    have h2 := congrArg (fun p => p.2.1) hEq
    simp only at h2
    linarith

unseal Rat.add Rat.mul Rat.sub Rat.inv Rat.ofScientific in
/-- Witness for `remarks_label_placement` at a concrete record with
remarks "r": elevation label at (2, 3, 0), remarks label at (2, 0, 0),
both on layer "v-points". -/
theorem remarks_label_placement_witness :
    (process_row projId 1 1 (newDoc, [])
        [("Geometry", "POINTZ(1 2 0)"), ("Instrument Ht", "34.67"), ("Remarks", "r")]).map
        (fun out => textsOf (out.1.entities.drop newDoc.entities.length)) =
      some [("0.00", ((2 : ℚ), (3 : ℚ), (0 : ℚ)), "v-points"),
        ("r", ((2 : ℚ), (0 : ℚ), (0 : ℚ)), "v-points")] ∧
    (((2 : ℚ), (0 : ℚ), (0 : ℚ)) : ℚ × ℚ × ℚ) ≠ ((2 : ℚ), (3 : ℚ), (0 : ℚ)) :=
  remarks_label_placement projId 1 1 newDoc []
    [("Geometry", "POINTZ(1 2 0)"), ("Instrument Ht", "34.67"), ("Remarks", "r")]
    1 2 0 34.67 0 (by decide) (by decide) (by decide) (by decide) (by decide) (by decide)

/-- Claim C7: a geometry string starting with none of POINTZ, LINESTRINGZ,
POLYGONZ parses to the empty coordinate sequence, the record contributes no
drawing entity and no summary row (state unchanged), and the file's
remaining rows are still processed from that unchanged state.  (The record
must get past the instrument-height coercion at line 48, which precedes the
geometry dispatch — hence the `isSome` hypothesis.) -/
theorem unrecognized_tag_skipped (proj : ℚ → ℚ → ℚ × ℚ) (ms ts : ℚ) (doc : Doc)
    (recs : List SummaryRow) (row : Row) (cols : List String) (rest : List Row)
    (h1 : strStartsWith (rowItem row "Geometry") "POINTZ" = false)
    (h2 : strStartsWith (rowItem row "Geometry") "LINESTRINGZ" = false)
    (h3 : strStartsWith (rowItem row "Geometry") "POLYGONZ" = false)
    (hih : (getInstHt row).isSome = true)
    (hcols : "Geometry" ∈ cols) :
    parse_geometry (rowItem row "Geometry") = some [] ∧
    process_row proj ms ts (doc, recs) row = some (doc, recs) ∧
    process_file proj ms ts (doc, recs) ⟨cols, row :: rest⟩ =
      process_rows proj ms ts (doc, recs) rest := by
  have hp : parse_geometry (rowItem row "Geometry") = some [] := by
    simp [parse_geometry, h1, h2, h3]
  obtain ⟨ih, hihe⟩ := Option.isSome_iff_exists.mp hih
  have hrow : process_row proj ms ts (doc, recs) row = some (doc, recs) := by
    simp [process_row, hihe, hp, h1, h2, h3]
  exact ⟨hp, hrow, by simp [process_file, hcols, process_rows, hrow]⟩

unseal Rat.add Rat.mul Rat.sub Rat.inv Rat.ofScientific in
/-- Witness for `unrecognized_tag_skipped` at a concrete CIRCLE record. -/
theorem unrecognized_tag_skipped_witness :
    parse_geometry "CIRCLE(1 2 3)" = some [] ∧
    process_row projId 1 1 (newDoc, []) [("Geometry", "CIRCLE(1 2 3)")] =
      some (newDoc, []) ∧
    process_file projId 1 1 (newDoc, [])
        ⟨["Geometry"], [[("Geometry", "CIRCLE(1 2 3)")]]⟩ =
      process_rows projId 1 1 (newDoc, []) [] :=
  unrecognized_tag_skipped projId 1 1 newDoc [] [("Geometry", "CIRCLE(1 2 3)")]
    ["Geometry"] [] (by decide) (by decide) (by decide) (by decide) (by decide)

/-- Claim C8: for a LineString record that processes successfully, the name
label's TEXT entity is anchored exactly at the projected vertex with index
⌊N/2⌋ of the N projected vertices (Nat division is floor division), and N
equals the number of parsed coordinate tuples; the label sits on the
per-feature line layer. -/
theorem line_label_midpoint_vertex (proj : ℚ → ℚ → ℚ × ℚ) (ms ts : ℚ) (doc : Doc)
    (recs : List SummaryRow) (row : Row) (ih : ℚ) (cds : List (List ℚ))
    (vs : List (ℚ × ℚ × ℚ)) (mid : ℚ × ℚ × ℚ)
    (hp : strStartsWith (rowItem row "Geometry") "POINTZ" = false)
    (hl : strStartsWith (rowItem row "Geometry") "LINESTRINGZ" = true)
    (hih : getInstHt row = some ih)
    (hc : parse_geometry (rowItem row "Geometry") = some cds)
    (hv : transformVertices proj ih cds = some vs)
    (hmid : vs.get? (vs.length / 2) = some mid) :
    (process_row proj ms ts (doc, recs) row).map
        (fun out => textsOf (out.1.entities.drop doc.entities.length)) =
      some [(rowName row, mid, "v-lines-" ++ rowName row)] ∧
    vs.length = cds.length := by
  refine ⟨?_, transformVertices_length proj ih cds vs hv⟩
  simp only [process_row, hih, hc, hv, hmid, hp, hl, Option.bind_eq_bind, Option.some_bind,
    if_true, if_false, Bool.false_eq_true, ensureLayer_entities, add_text]
  rw [addVertexEntities_append]
  simp only [Option.pure_def, Option.map_some']
  rw [List.append_assoc, List.append_assoc, List.drop_left]
  rw [textsOf_append, textsOf_append, textsOf_addVertexEntities]
  simp [textsOf]

unseal Rat.add Rat.mul Rat.sub Rat.inv Rat.ofScientific in
/-- Witness for `line_label_midpoint_vertex` at a concrete 2-vertex line:
the label anchors at vertex index 2/2 = 1, i.e. the second vertex (3,4,0),
not at an interpolated midpoint. -/
theorem line_label_midpoint_vertex_witness :
    (process_row projId 1 1 (newDoc, [])
        [("Geometry", "LINESTRINGZ(1 2 0, 3 4 0)"), ("Instrument Ht", "34.67")]).map
        (fun out => textsOf (out.1.entities.drop newDoc.entities.length)) =
      some [("", ((3 : ℚ), (4 : ℚ), (0 : ℚ)), "v-lines-")] ∧
    ([((1 : ℚ), (2 : ℚ), (0 : ℚ)), ((3 : ℚ), (4 : ℚ), (0 : ℚ))] :
        List (ℚ × ℚ × ℚ)).length = ([[1, 2, 0], [3, 4, 0]] : List (List ℚ)).length :=
  line_label_midpoint_vertex projId 1 1 newDoc []
    [("Geometry", "LINESTRINGZ(1 2 0, 3 4 0)"), ("Instrument Ht", "34.67")]
    34.67 [[1, 2, 0], [3, 4, 0]] [(1, 2, 0), (3, 4, 0)] (3, 4, 0)
    (by decide) (by decide) (by decide) (by decide) (by decide) (by decide)

/-- Whether one row succeeds and which summary row it appends does not
depend on the display parameters or on the document state accumulated so
far — only the entity geometry does. -/
theorem process_row_snd (proj : ℚ → ℚ → ℚ × ℚ) (m1 t1 m2 t2 : ℚ) (d1 d2 : Doc)
    (recs : List SummaryRow) (row : Row) :
    (process_row proj m1 t1 (d1, recs) row).map Prod.snd =
      (process_row proj m2 t2 (d2, recs) row).map Prod.snd := by
  simp only [process_row]
  cases hih : getInstHt row with
  | none => simp
  | some ih =>
    simp only [Option.bind_eq_bind, Option.some_bind]
    cases hc : parse_geometry (rowItem row "Geometry") with
    | none => simp
    | some coords =>
      simp only [Option.some_bind]
      split
      · split <;> simp
      · split
        · cases hv : transformVertices proj ih coords with
          | none => simp
          | some vs =>
            simp only [Option.some_bind]
            cases hmid : vs.get? (vs.length / 2) <;> simp
        · split
          · cases hv : transformVertices proj ih coords <;> simp
          · simp

/-- Lift of `process_row_snd` to the row loop. -/
theorem process_rows_snd (proj : ℚ → ℚ → ℚ × ℚ) (m1 t1 m2 t2 : ℚ) :
    ∀ (rows : List Row) (d1 d2 : Doc) (recs : List SummaryRow),
      (process_rows proj m1 t1 (d1, recs) rows).map Prod.snd =
        (process_rows proj m2 t2 (d2, recs) rows).map Prod.snd := by
  intro rows
  induction rows with
  | nil => intro d1 d2 recs; rfl
  | cons r rs ihr =>
      intro d1 d2 recs
      simp only [process_rows, Option.bind_eq_bind]
      have h := process_row_snd proj m1 t1 m2 t2 d1 d2 recs r
      cases h1 : process_row proj m1 t1 (d1, recs) r with
      | none =>
          rw [h1] at h
          cases h2 : process_row proj m2 t2 (d2, recs) r with
          | none => simp
          | some s2 => rw [h2] at h; simp at h
      | some s1 =>
          rw [h1] at h
          cases h2 : process_row proj m2 t2 (d2, recs) r with
          | none => rw [h2] at h; simp at h
          | some s2 =>
              rw [h2] at h
              simp only [Option.map_some', Option.some.injEq] at h
              simp only [Option.some_bind]
              have e1 : s1 = (s1.1, s1.2) := rfl
              have e2 : s2 = (s2.1, s2.2) := rfl
              rw [e1, e2, h]
              exact ihr s1.1 s2.1 s2.2

/-- Lift of `process_rows_snd` to one file (the Geometry-column guard does
not look at the display parameters). -/
theorem process_file_snd (proj : ℚ → ℚ → ℚ × ℚ) (m1 t1 m2 t2 : ℚ) (f : CsvFile)
    (d1 d2 : Doc) (recs : List SummaryRow) :
    (process_file proj m1 t1 (d1, recs) f).map Prod.snd =
      (process_file proj m2 t2 (d2, recs) f).map Prod.snd := by
  unfold process_file
  split
  · exact process_rows_snd proj m1 t1 m2 t2 f.rows d1 d2 recs
  · rfl

/-- Lift of `process_file_snd` to the batch. -/
theorem process_files_snd (proj : ℚ → ℚ → ℚ × ℚ) (m1 t1 m2 t2 : ℚ) :
    ∀ (files : List CsvFile) (d1 d2 : Doc) (recs : List SummaryRow),
      (process_files proj m1 t1 (d1, recs) files).map Prod.snd =
        (process_files proj m2 t2 (d2, recs) files).map Prod.snd := by
  intro files
  induction files with
  | nil => intro d1 d2 recs; rfl
  | cons f fs ihf =>
      intro d1 d2 recs
      simp only [process_files, Option.bind_eq_bind]
      have h := process_file_snd proj m1 t1 m2 t2 f d1 d2 recs
      cases h1 : process_file proj m1 t1 (d1, recs) f with
      | none =>
          rw [h1] at h
          cases h2 : process_file proj m2 t2 (d2, recs) f with
          | none => simp
          | some s2 => rw [h2] at h; simp at h
      | some s1 =>
          rw [h1] at h
          cases h2 : process_file proj m2 t2 (d2, recs) f with
          | none => rw [h2] at h; simp at h
          | some s2 =>
              rw [h2] at h
              simp only [Option.map_some', Option.some.injEq] at h
              simp only [Option.some_bind]
              have e1 : s1 = (s1.1, s1.2) := rfl
              have e2 : s2 = (s2.1, s2.2) := rfl
              rw [e1, e2, h]
              exact ihf s1.1 s2.1 s2.2

/-- Claim C9: two runs of the conversion on the same uploaded files that
differ only in the marker-size and text-size parameters produce the same
summary table (and succeed or fail together): the summary component of the
result is identical. -/
theorem summary_independent_of_display_params (proj : ℚ → ℚ → ℚ × ℚ)
    (files : List CsvFile) (m1 t1 m2 t2 : ℚ) :
    (process_csvs proj files m1 t1).map Prod.snd =
      (process_csvs proj files m2 t2).map Prod.snd :=
  process_files_snd proj m1 t1 m2 t2 files newDoc newDoc []

/-- Claim C10: the name used for labels, layer names and the summary row is
the value of the Name column when it exists (even when empty), else the
value of the ID column when it exists, else the empty string. -/
theorem name_resolution (row : Row) :
    (∀ v, row.lookup "Name" = some v → rowName row = v) ∧
    (row.lookup "Name" = none → ∀ v, row.lookup "ID" = some v → rowName row = v) ∧
    (row.lookup "Name" = none → row.lookup "ID" = none → rowName row = "") := by
  refine ⟨fun v h => ?_, fun h v hv => ?_, fun h h2 => ?_⟩
  · simp [rowName, rowGet, h]
  · simp [rowName, rowGet, h, hv]
  · simp [rowName, rowGet, h, h2]

/-- Witness for `name_resolution`: an empty Name wins over a present ID, an
ID is used when Name is absent, and the default is the empty string. -/
theorem name_resolution_witness :
    rowName [("Name", ""), ("ID", "x")] = "" ∧
    rowName [("ID", "y")] = "y" ∧
    rowName [] = "" :=
  ⟨(name_resolution [("Name", ""), ("ID", "x")]).1 "" (by decide),
   (name_resolution [("ID", "y")]).2.1 (by decide) "y" (by decide),
   (name_resolution []).2.2 (by decide) (by decide)⟩
